import Mathlib

/-!
Verification development for the career_assistant repository.

The frontend (Next.js client in `app/page.tsx`, `components/FileInput.tsx`,
`components/ProgressTracker.tsx`, `components/ResultsDisplay.tsx`) and the
persistent-store schema (`supabase_schema.sql`) are embedded from the source.
The FastAPI backend (`backend/main.py` and `backend/lib/*`) is not present in
the repository snapshot; where a property depends on it, the relevant
operation is modelled from the design document and marked as such in its
doc comment.
-/

namespace CareerAssistant

/-- JavaScript strings are modelled as lists of characters. -/
abbrev JsStr := List Char

/-- Model of `String.prototype.trim`: removes leading and trailing
whitespace characters. -/
def jsTrim (s : JsStr) : JsStr :=
  (s.dropWhile Char.isWhitespace).rdropWhile Char.isWhitespace

/-- Client form state relevant to `handleProcess` in `app/page.tsx`:
the previous-session text field, the CV file (presence) and link, and the
three job-offer sources (file presence, link, pasted text). -/
structure FormState where
  previousSessionId : JsStr
  cvFile : Bool
  cvLink : JsStr
  jobOfferFile : Bool
  jobOfferLink : JsStr
  jobOfferText : JsStr
deriving DecidableEq

/-- The résumé has a source present: a file or a non-empty link
(JS truthiness of `cvFile || cvLink`). -/
def hasCvSource (s : FormState) : Bool :=
  s.cvFile || !s.cvLink.isEmpty

/-- The job offer has a source present: a file, a non-empty link, or pasted
text that trims non-empty (JS truthiness of
`jobOfferFile || jobOfferLink || jobOfferText.trim()`). -/
def hasOfferSource (s : FormState) : Bool :=
  s.jobOfferFile || !s.jobOfferLink.isEmpty || !(jsTrim s.jobOfferText).isEmpty

/-- Embedding of the validation at the top of `handleProcess`
(`app/page.tsx` lines 71-90): three guarded early returns producing an
error message, `none` when validation passes and the request is sent. -/
def validateProcess (s : FormState) : Option String :=
  let hasPreviousSession := !(jsTrim s.previousSessionId).isEmpty
  let hasJobOffer := s.jobOfferFile || !s.jobOfferLink.isEmpty
      || !(jsTrim s.jobOfferText).isEmpty
  let hasFiles := (s.cvFile || !s.cvLink.isEmpty) && hasJobOffer
  if !hasPreviousSession && !hasFiles then
    some "Please provide CV and job offer, or enter a previous session ID"
  else if !hasPreviousSession && (!s.cvFile && s.cvLink.isEmpty) then
    some "Please provide your CV"
  else if !hasPreviousSession && (!s.jobOfferFile && s.jobOfferLink.isEmpty
      && (jsTrim s.jobOfferText).isEmpty) then
    some "Please provide the job offer"
  else
    none

/-- A submission reuses a valid session when the previous-session field
trims to a non-empty id that belongs to the set of sessions with a cache
entry (validity itself lives in the backend store). -/
def reusesValidSession (validSessions : List JsStr) (s : FormState) : Prop :=
  jsTrim s.previousSessionId ≠ [] ∧ jsTrim s.previousSessionId ∈ validSessions

/-- Embedding of `generateSessionId` in `app/page.tsx`:
`session_${Date.now()}_${random-suffix}`. The timestamp is a natural
number rendered in decimal; the random suffix is an arbitrary string. -/
def generateSessionId (now : Nat) (randSuffix : JsStr) : JsStr :=
  [ 's', 'e', 's', 's', 'i', 'o', 'n', '_' ] ++ Nat.toDigits 10 now
    ++ '_' :: randSuffix

/-- Embedding of `const sessionToUse = previousSessionId.trim() || sessionId.trim()`
in `handleProcess`. -/
def sessionToUse (previousSessionId sessionId : JsStr) : JsStr :=
  if jsTrim previousSessionId ≠ [] then jsTrim previousSessionId
  else jsTrim sessionId

/-- Embedding of `if (sessionToUse) formData.append('session_id', sessionToUse)`:
the value of the `session_id` form field, `none` when the field is omitted. -/
def buildSessionField (previousSessionId sessionId : JsStr) : Option JsStr :=
  if sessionToUse previousSessionId sessionId ≠ [] then
    some (sessionToUse previousSessionId sessionId)
  else none

/-- Result payload fields consumed by `ResultsDisplay`
(`components/ResultsDisplay.tsx`); `pdf_available` is optional in the
TypeScript interface, so an absent field is `none`. -/
structure AnalysisResults where
  pdf_available : Option Bool
deriving DecidableEq

/-- Embedding of the render guard `results.pdf_available !== false` around
the download button in `ResultsDisplay`. -/
def showDownloadButton (r : AnalysisResults) : Bool :=
  r.pdf_available != some false

/-- Embedding of the render guard `results.pdf_available === false` around
the PDF-not-available notice in `ResultsDisplay`. -/
def showPdfNotice (r : AnalysisResults) : Bool :=
  r.pdf_available == some false

/-- Row of the `comparison_cache` table in `supabase_schema.sql`:
`session_id TEXT PRIMARY KEY`, three hash columns (the considerations hash
is nullable), the JSONB comparison results, the two analysis texts
(nullable), and a creation timestamp (modelled in seconds). -/
structure CacheEntry where
  session_id : String
  cv_text_hash : String
  job_offer_text_hash : String
  additional_considerations_hash : Option String
  comparison_results : String
  cv_analysis : Option String
  job_offer_analysis : Option String
  created_at : Int

/-- The cache table is a list of rows. -/
abbrev Cache := List CacheEntry

/-- Read the row for a session id, `none` when absent
(`SELECT ... WHERE session_id = sid`). -/
def lookupCache (sid : String) (c : Cache) : Option CacheEntry :=
  c.find? (fun e => e.session_id == sid)

/-- Insert a row into `comparison_cache`. `session_id` is the PRIMARY KEY,
so an insert for a key that already has a row is rejected by the store and
the table is unchanged. -/
def storeCache (e : CacheEntry) (c : Cache) : Cache :=
  match lookupCache e.session_id c with
  | some _ => c
  | none => e :: c

/-- Retention window of `delete_old_comparison_cache` in
`supabase_schema.sql`: INTERVAL 24 hours, in seconds. -/
def CACHE_MAX_AGE : Int := 24 * 60 * 60

/-- Embedding of `delete_old_comparison_cache()` in `supabase_schema.sql`:
`DELETE FROM comparison_cache WHERE created_at < NOW() - INTERVAL 24 hours`.
Rows at least as recent as the cutoff are kept unchanged. -/
def sweepCache (now : Int) (c : Cache) : Cache :=
  c.filter (fun e => !(decide (e.created_at < now - CACHE_MAX_AGE)))

/-- One operation against the `comparison_cache` table that can change it:
an insert or a retention sweep. -/
inductive CacheOp
  | store (e : CacheEntry)
  | sweep (now : Int)

/-- Apply one cache operation. -/
def applyCacheOp (c : Cache) : CacheOp → Cache
  | .store e => storeCache e c
  | .sweep now => sweepCache now c

/-- Apply a sequence of cache operations in order. -/
def applyCacheOps (c : Cache) (ops : List CacheOp) : Cache :=
  ops.foldl applyCacheOp c

/-- Key-uniqueness of the table: no two rows share a `session_id`. -/
def uniqueSessions (c : Cache) : Prop :=
  (c.map CacheEntry.session_id).Nodup

/-- All rows stored under a given session id. -/
def entriesFor (sid : String) (c : Cache) : Cache :=
  c.filter (fun e => e.session_id == sid)

/-- Row of the `user_requests` table in `supabase_schema.sql`: origin IP,
nullable process and user ids, and a creation timestamp (seconds). -/
structure RequestLogEntry where
  ip_address : String
  process_id : Option String
  user_id : Option String
  created_at : Int

/-- The request log is a list of rows. -/
abbrev RequestLog := List RequestLogEntry

/-- Per-origin daily ceiling. Modelled from the spec: the backend rate
limiter is not in the snapshot; the README states 2 requests per IP per
day. -/
def PER_ORIGIN_LIMIT : Nat := 2

/-- Global daily ceiling. Modelled from the spec: the backend rate limiter
is not in the snapshot; the README states 10 global requests per day. -/
def GLOBAL_LIMIT : Nat := 10

/-- Trailing window of the rate limiter, 24 hours in seconds. -/
def RATE_WINDOW : Int := 24 * 60 * 60

/-- Modelled from the spec: count of request-log rows for one origin inside
the trailing 24-hour window (rate-limiter step 1 of the design document). -/
def countOriginRequests (now : Int) (origin : String) (log : RequestLog) : Nat :=
  (log.filter (fun e =>
    e.ip_address == origin && decide (now - RATE_WINDOW < e.created_at))).length

/-- Modelled from the spec: count of all request-log rows inside the
trailing 24-hour window, any origin (rate-limiter step 2). -/
def countAllRequests (now : Int) (log : RequestLog) : Nat :=
  (log.filter (fun e => decide (now - RATE_WINDOW < e.created_at))).length

/-- Rejection kinds of the submit operation, from the error taxonomy of the
design document and the error payloads handled in `app/page.tsx`. -/
inductive SubmitError
  | invalidRequest
  | sessionNotFound
  | ambiguousInput
  | originRateLimit
  | globalRateLimit
deriving DecidableEq

/-- Modelled from the spec: every rejection carries a human-readable
message and a remediation suggestion (`detail.message` and
`detail.suggestion` read by `app/page.tsx`); the backend producing them is
not in the snapshot. -/
def errorDetail : SubmitError → String × String
  | .invalidRequest =>
      ("You cannot reuse a previous session and send new content at the same time.",
       "Provide a session id or files, not both.")
  | .sessionNotFound =>
      ("Session not found. It may have expired or never existed.",
       "Check the session id, or provide your CV and the job offer to start a new analysis.")
  | .ambiguousInput =>
      ("Required fields are missing.",
       "Provide your CV and the job offer.")
  | .originRateLimit =>
      ("Daily request limit reached for your IP address.",
       "Retry tomorrow.")
  | .globalRateLimit =>
      ("The global daily request limit has been reached.",
       "Retry tomorrow.")

/-- Modelled from the spec: admission check of the two-tier rate limiter.
The per-origin count is examined first; only when it passes is the global
count examined. -/
def admissionCheck (now : Int) (origin : String) (log : RequestLog) :
    Option SubmitError :=
  if PER_ORIGIN_LIMIT ≤ countOriginRequests now origin log then
    some .originRateLimit
  else if GLOBAL_LIMIT ≤ countAllRequests now log then
    some .globalRateLimit
  else
    none

/-- Normalized fresh input content of one analysis request: résumé text,
job-offer text, optional extra considerations. -/
structure Content where
  cv_text : String
  offer_text : String
  considerations : Option String

/-- External capabilities the orchestrator composes (opaque in the design
document): text fingerprinting, the analysis pipeline producing the
comparison-result bytes, and the two intermediate analyses. -/
structure Capabilities where
  hashText : String → String
  runPipeline : Content → String
  cvAnalysis : Content → String
  offerAnalysis : Content → String

/-- One submit request as the orchestrator sees it: an optional session id
requesting reuse, optional fresh content, the session id a fresh run is
stored under, the caller origin and user id. -/
structure SubmitRequest where
  reuseSessionId : Option String
  content : Option Content
  freshSessionId : String
  origin : String
  userId : String

/-- Durable state the orchestrator works against: the result cache and the
request log. -/
structure OrchState where
  cache : Cache
  log : RequestLog

/-- Outcome of one submit call: a rejection, or the analysis results
(returned synchronously in the reference behavior). -/
inductive SubmitOutcome
  | rejected (e : SubmitError)
  | results (r : String)
deriving DecidableEq

/-- Modelled from the spec: the submit operation of the Orchestrator
(`backend/main.py` is not in the snapshot). A request carrying both a
session id and fresh content is rejected before any pipeline work; a reuse
request answers from the cache without touching the log; a fresh request
passes the admission check, runs the pipeline, stores the cache row and
writes exactly one request-log row. -/
def submit (caps : Capabilities) (now : Int) (pid : String) (st : OrchState)
    (req : SubmitRequest) : SubmitOutcome × OrchState :=
  match req.reuseSessionId with
  | some sid =>
    match req.content with
    | some _ => (.rejected .invalidRequest, st)
    | none =>
      match lookupCache sid st.cache with
      | some e => (.results e.comparison_results, st)
      | none => (.rejected .sessionNotFound, st)
  | none =>
    match req.content with
    | none => (.rejected .ambiguousInput, st)
    | some c =>
      match admissionCheck now req.origin st.log with
      | some err => (.rejected err, st)
      | none =>
        let res := caps.runPipeline c
        let entry : CacheEntry :=
          { session_id := req.freshSessionId
            cv_text_hash := caps.hashText c.cv_text
            job_offer_text_hash := caps.hashText c.offer_text
            additional_considerations_hash := c.considerations.map caps.hashText
            comparison_results := res
            cv_analysis := some (caps.cvAnalysis c)
            job_offer_analysis := some (caps.offerAnalysis c)
            created_at := now }
        (.results res,
         { cache := storeCache entry st.cache
           log := { ip_address := req.origin, process_id := some pid
                    user_id := some req.userId, created_at := now } :: st.log })

/-- Pipeline states of the analysis state machine, from the design
document (the backend implementing it is not in the snapshot). -/
inductive Stage
  | pending
  | understanding_cv
  | understanding_offer
  | comparing
  | generating_report
  | completed
  | failed
deriving DecidableEq

/-- Per-stage completion flags of a process, the `tasks` object consumed by
`ProgressTracker` (`generate_report` is surfaced as `generate_pdf`). -/
structure StageFlags where
  understand_cv : Bool
  understand_offer : Bool
  compare : Bool
  generate_report : Bool
deriving DecidableEq

/-- One pipeline process: its current stage and its completion flags. -/
structure PipelineProcess where
  stage : Stage
  flags : StageFlags
deriving DecidableEq

/-- A freshly created process: pending, no stage completed. -/
def newProcess : PipelineProcess :=
  ⟨.pending, ⟨false, false, false, false⟩⟩

/-- Modelled from the spec: the transition relation of the pipeline state
machine. Each stage transition sets the completion flag of the stage just
finished as one atomic step with the state change; a failure from any
non-terminal state keeps the flags as they are. -/
inductive PipelineStep : PipelineProcess → PipelineProcess → Prop
  | start (f : StageFlags) :
      PipelineStep ⟨.pending, f⟩ ⟨.understanding_cv, f⟩
  | cv_done (f : StageFlags) :
      PipelineStep ⟨.understanding_cv, f⟩
        ⟨.understanding_offer, { f with understand_cv := true }⟩
  | offer_done (f : StageFlags) :
      PipelineStep ⟨.understanding_offer, f⟩
        ⟨.comparing, { f with understand_offer := true }⟩
  | compare_done (f : StageFlags) :
      PipelineStep ⟨.comparing, f⟩
        ⟨.generating_report, { f with compare := true }⟩
  | report_done (f : StageFlags) :
      PipelineStep ⟨.generating_report, f⟩
        ⟨.completed, { f with generate_report := true }⟩
  | fail (p : PipelineProcess) :
      p.stage ≠ .completed → p.stage ≠ .failed →
      PipelineStep p ⟨.failed, p.flags⟩

/-- A process snapshot an observer can obtain: reachable from the fresh
process by pipeline steps. -/
def ReachableProcess (p : PipelineProcess) : Prop :=
  Relation.ReflTransGen PipelineStep newProcess p

/-- The true flags form a prefix of the stage order understand_cv,
understand_offer, compare, generate_report: no later flag is true while an
earlier one is false. -/
def flagsOrdered (f : StageFlags) : Prop :=
  (f.understand_offer = true → f.understand_cv = true) ∧
  (f.compare = true → f.understand_offer = true) ∧
  (f.generate_report = true → f.compare = true)

/-- Flag record with the first `n` stages completed. -/
def flagsUpTo (n : Nat) : StageFlags :=
  ⟨decide (1 ≤ n), decide (2 ≤ n), decide (3 ≤ n), decide (4 ≤ n)⟩

/-- Flags admissible at a given stage: the flags record exactly the stages
the state machine has advanced past (for a failed process, the stages
passed before the failure). -/
def stageInvFlags : Stage → StageFlags → Prop
  | .pending, f => f = flagsUpTo 0
  | .understanding_cv, f => f = flagsUpTo 0
  | .understanding_offer, f => f = flagsUpTo 1
  | .comparing, f => f = flagsUpTo 2
  | .generating_report, f => f = flagsUpTo 3
  | .completed, f => f = flagsUpTo 4
  | .failed, f =>
      f = flagsUpTo 0 ∨ f = flagsUpTo 1 ∨ f = flagsUpTo 2 ∨ f = flagsUpTo 3

/-- Inductive invariant tying the stage of a process to its flags. -/
def stageFlagInv (p : PipelineProcess) : Prop :=
  stageInvFlags p.stage p.flags

/-- A generated session id never trims to the empty string: it starts with
the letter s of the literal session text. -/
theorem jsTrim_generateSessionId_ne_nil (now : Nat) (randSuffix : JsStr) :
    jsTrim (generateSessionId now randSuffix) ≠ [] := by
  have hform : generateSessionId now randSuffix =
      's' :: (['e', 's', 's', 'i', 'o', 'n', '_'] ++ Nat.toDigits 10 now
        ++ '_' :: randSuffix) := by
    simp [generateSessionId]
  rw [hform]
  unfold jsTrim
  rw [List.dropWhile_cons, if_neg (by decide)]
  rw [Ne, List.rdropWhile_eq_nil_iff]
  intro h
  have := h 's' (by simp)
  simp [Char.isWhitespace] at this

/-- C9: every submission built by the client carries a non-empty
session_id field: the submit handler appends the trimmed previous session
id when one is supplied and otherwise the session id generated on mount,
which is never blank. -/
theorem submission_carries_session_id (prev : JsStr) (now : Nat)
    (randSuffix : JsStr) :
    ∃ v, buildSessionField prev (generateSessionId now randSuffix) = some v ∧
      v ≠ [] := by
  unfold buildSessionField sessionToUse
  by_cases h : jsTrim prev = []
  · simp only [h, ne_eq, not_true_eq_false, if_false]
    have hg := jsTrim_generateSessionId_ne_nil now randSuffix
    exact ⟨jsTrim (generateSessionId now randSuffix), by simp [hg], hg⟩
  · exact ⟨jsTrim prev, by simp [h], h⟩

/-- C10: the results view offers the PDF download action exactly when
`pdf_available` is not the value false (so also when the field is absent),
and shows the not-available notice exactly when it is false. -/
theorem pdf_actions_iff (r : AnalysisResults) :
    (showDownloadButton r = true ↔ r.pdf_available ≠ some false) ∧
    (showPdfNotice r = true ↔ r.pdf_available = some false) := by
  obtain ⟨pa⟩ := r
  cases pa with
  | none => simp [showDownloadButton, showPdfNotice]
  | some b => cases b <;> simp [showDownloadButton, showPdfNotice]

/-- C8: the retention sweep keeps exactly the rows whose creation
timestamp is not older than the 24-hour maximum age; every younger row
survives unchanged and every older row is deleted. -/
theorem sweep_deletes_exactly_old (now : Int) (c : Cache) (e : CacheEntry) :
    e ∈ sweepCache now c ↔
      e ∈ c ∧ ¬(e.created_at < now - CACHE_MAX_AGE) := by
  simp [sweepCache, List.mem_filter]

/-- C6 counterexample: a submission whose previous-session field holds an
id with no cache entry (here the id x against an empty store) and which
has no résumé source does not reuse a valid session, yet it is not
rejected with the missing-fields error: client validation passes and the
backend rejects it with session_not_found instead. -/
theorem missing_fields_cex :
    ¬ reusesValidSession [] ⟨['x'], false, [], false, [], []⟩ ∧
    hasCvSource ⟨['x'], false, [], false, [], []⟩ = false ∧
    validateProcess ⟨['x'], false, [], false, [], []⟩ = none ∧
    submit ⟨fun s => s, fun _ => "", fun _ => "", fun _ => ""⟩ 0 "p0"
        ⟨[], []⟩ ⟨some "x", none, "", "1.2.3.4", "demo"⟩ =
      (.rejected .sessionNotFound, ⟨[], []⟩) := by
  refine ⟨?_, by decide, by decide, rfl⟩
  intro h
  exact absurd h.2 (by decide)

/-- C6 amended: the client-side missing-fields rejection fires exactly when
the previous-session field trims to empty and the résumé or the job offer
has no source present; whenever any non-blank session id is supplied,
valid or not, absent sources never trigger this rejection. -/
theorem missing_fields_iff (s : FormState) :
    (validateProcess s).isSome = true ↔
      jsTrim s.previousSessionId = [] ∧
        (hasCvSource s = false ∨ hasOfferSource s = false) := by
  obtain ⟨prev, cvF, cvL, joF, joL, joT⟩ := s
  unfold validateProcess hasCvSource hasOfferSource
  cases hprev : (jsTrim prev).isEmpty <;>
    cases cvF <;>
    cases hcvL : cvL.isEmpty <;>
    cases joF <;>
    cases hjoL : joL.isEmpty <;>
    cases hjoT : (jsTrim joT).isEmpty <;>
    simp_all [List.isEmpty_iff]

/-- Inserting into `comparison_cache` preserves key uniqueness: the insert
is rejected when the key exists, and otherwise adds a key not present. -/
theorem storeCache_uniqueSessions (e : CacheEntry) (c : Cache)
    (h : uniqueSessions c) : uniqueSessions (storeCache e c) := by
  unfold storeCache
  cases hl : lookupCache e.session_id c with
  | some x => exact h
  | none =>
    unfold uniqueSessions at h ⊢
    rw [List.map_cons, List.nodup_cons]
    refine ⟨?_, h⟩
    intro hmem
    obtain ⟨x, hx, hxe⟩ := List.mem_map.mp hmem
    have hne := List.find?_eq_none.mp hl x hx
    simp only [beq_iff_eq] at hne
    exact hne hxe

/-- The retention sweep preserves key uniqueness: it only removes rows. -/
theorem sweepCache_uniqueSessions (now : Int) (c : Cache)
    (h : uniqueSessions c) : uniqueSessions (sweepCache now c) := by
  unfold uniqueSessions at h ⊢
  exact h.sublist ((List.filter_sublist c).map CacheEntry.session_id)

/-- Any sequence of inserts and sweeps preserves key uniqueness. -/
theorem applyCacheOps_uniqueSessions (ops : List CacheOp) (c : Cache)
    (h : uniqueSessions c) : uniqueSessions (applyCacheOps c ops) := by
  induction ops generalizing c with
  | nil => exact h
  | cons op t ih =>
    cases op with
    | store e => exact ih _ (storeCache_uniqueSessions e c h)
    | sweep now => exact ih _ (sweepCache_uniqueSessions now c h)

/-- In a table with unique keys, at most one row exists per session id. -/
theorem entriesFor_length_le_one (sid : String) (c : Cache)
    (h : uniqueSessions c) : (entriesFor sid c).length ≤ 1 := by
  induction c with
  | nil => simp [entriesFor]
  | cons a t ih =>
    unfold uniqueSessions at h
    rw [List.map_cons, List.nodup_cons] at h
    obtain ⟨hna, hnt⟩ := h
    unfold entriesFor at ih ⊢
    rw [List.filter_cons]
    by_cases ha : a.session_id = sid
    · have hnil : t.filter (fun e => e.session_id == sid) = [] := by
        rw [List.filter_eq_nil_iff]
        intro x hx
        simp only [beq_iff_eq]
        intro hxs
        exact hna (List.mem_map.mpr ⟨x, hx, by rw [hxs, ha]⟩)
      simp [ha, hnil]
    · simp only [beq_iff_eq, ha, decide_False, if_false]
      exact ih hnt

/-- C4: starting from a table with unique keys, every sequence of store and
sweep operations preserves the one-entry-per-session invariant, and a
store for a session id that already has a row is rejected, leaving the
table (its fingerprint fields included) unchanged. -/
theorem cache_one_entry_per_session (c : Cache) (ops : List CacheOp)
    (h : uniqueSessions c) :
    uniqueSessions (applyCacheOps c ops) ∧
    (∀ sid, (entriesFor sid (applyCacheOps c ops)).length ≤ 1) ∧
    (∀ e, lookupCache e.session_id c ≠ none → storeCache e c = c) := by
  have hu := applyCacheOps_uniqueSessions ops c h
  refine ⟨hu, fun sid => entriesFor_length_le_one sid _ hu, fun e he => ?_⟩
  unfold storeCache
  cases hl : lookupCache e.session_id c with
  | some x => rfl
  | none => exact absurd hl he

/-- Witness for C4 at a concrete table and operation sequence. -/
theorem cache_one_entry_per_session_witness :
    uniqueSessions ([⟨"s1", "h1", "h2", none, "r", none, none, 0⟩] : Cache) ∧
    (uniqueSessions (applyCacheOps
        [⟨"s1", "h1", "h2", none, "r", none, none, 0⟩]
        [.store ⟨"s1", "x", "y", none, "q", none, none, 5⟩, .sweep 100000]) ∧
      (∀ sid, (entriesFor sid (applyCacheOps
        [⟨"s1", "h1", "h2", none, "r", none, none, 0⟩]
        [.store ⟨"s1", "x", "y", none, "q", none, none, 5⟩,
          .sweep 100000])).length ≤ 1) ∧
      (∀ e, lookupCache e.session_id
          [⟨"s1", "h1", "h2", none, "r", none, none, 0⟩] ≠ none →
        storeCache e [⟨"s1", "h1", "h2", none, "r", none, none, 0⟩] =
          [⟨"s1", "h1", "h2", none, "r", none, none, 0⟩])) := by
  constructor
  · simp [uniqueSessions]
  · exact cache_one_entry_per_session _ _ (by simp [uniqueSessions])

/-- Flags with the first stages completed always form an ordered prefix. -/
theorem flagsUpTo_ordered (n : Nat) : flagsOrdered (flagsUpTo n) := by
  unfold flagsOrdered flagsUpTo
  simp only [decide_eq_true_eq]
  omega

/-- Failing from a non-terminal stage keeps the flags admissible for the
failed state. -/
theorem stageInvFlags_fail (st : Stage) (f : StageFlags)
    (h1 : st ≠ .completed) (h2 : st ≠ .failed)
    (hinv : stageInvFlags st f) : stageInvFlags .failed f := by
  cases st with
  | pending => exact Or.inl hinv
  | understanding_cv => exact Or.inl hinv
  | understanding_offer => exact Or.inr (Or.inl hinv)
  | comparing => exact Or.inr (Or.inr (Or.inl hinv))
  | generating_report => exact Or.inr (Or.inr (Or.inr hinv))
  | completed => exact absurd rfl h1
  | failed => exact absurd rfl h2

/-- Each pipeline step preserves the stage-to-flags invariant. -/
theorem stageFlagInv_step (p q : PipelineProcess) (hstep : PipelineStep p q)
    (hinv : stageFlagInv p) : stageFlagInv q := by
  cases hstep with
  | start f => exact hinv
  | cv_done f =>
    have hf : f = flagsUpTo 0 := hinv
    show ({ f with understand_cv := true } : StageFlags) = flagsUpTo 1
    rw [hf]
    decide
  | offer_done f =>
    have hf : f = flagsUpTo 1 := hinv
    show ({ f with understand_offer := true } : StageFlags) = flagsUpTo 2
    rw [hf]
    decide
  | compare_done f =>
    have hf : f = flagsUpTo 2 := hinv
    show ({ f with compare := true } : StageFlags) = flagsUpTo 3
    rw [hf]
    decide
  | report_done f =>
    have hf : f = flagsUpTo 3 := hinv
    show ({ f with generate_report := true } : StageFlags) = flagsUpTo 4
    rw [hf]
    decide
  | fail _ h1 h2 => exact stageInvFlags_fail p.stage p.flags h1 h2 hinv

/-- Every reachable process snapshot satisfies the stage-to-flags
invariant. -/
theorem reachable_stageFlagInv (p : PipelineProcess)
    (h : ReachableProcess p) : stageFlagInv p := by
  induction h with
  | refl => exact rfl
  | tail hab hbc ih => exact stageFlagInv_step _ _ hbc ih

/-- C5: in every observable snapshot of a pipeline process, the set of
true stage completion flags is a prefix of the stage order understand_cv,
understand_offer, compare, generate_report. -/
theorem reachable_flags_ordered (p : PipelineProcess)
    (h : ReachableProcess p) : flagsOrdered p.flags := by
  have hinv := reachable_stageFlagInv p h
  obtain ⟨st, f⟩ := p
  cases st with
  | pending =>
    have hf : f = flagsUpTo 0 := hinv
    rw [show (PipelineProcess.mk .pending f).flags = f from rfl, hf]
    exact flagsUpTo_ordered 0
  | understanding_cv =>
    have hf : f = flagsUpTo 0 := hinv
    rw [show (PipelineProcess.mk .understanding_cv f).flags = f from rfl, hf]
    exact flagsUpTo_ordered 0
  | understanding_offer =>
    have hf : f = flagsUpTo 1 := hinv
    rw [show (PipelineProcess.mk .understanding_offer f).flags = f from rfl, hf]
    exact flagsUpTo_ordered 1
  | comparing =>
    have hf : f = flagsUpTo 2 := hinv
    rw [show (PipelineProcess.mk .comparing f).flags = f from rfl, hf]
    exact flagsUpTo_ordered 2
  | generating_report =>
    have hf : f = flagsUpTo 3 := hinv
    rw [show (PipelineProcess.mk .generating_report f).flags = f from rfl, hf]
    exact flagsUpTo_ordered 3
  | completed =>
    have hf : f = flagsUpTo 4 := hinv
    rw [show (PipelineProcess.mk .completed f).flags = f from rfl, hf]
    exact flagsUpTo_ordered 4
  | failed =>
    have hd : f = flagsUpTo 0 ∨ f = flagsUpTo 1 ∨ f = flagsUpTo 2 ∨
        f = flagsUpTo 3 := hinv
    rw [show (PipelineProcess.mk .failed f).flags = f from rfl]
    rcases hd with hf | hf | hf | hf <;> rw [hf]
    · exact flagsUpTo_ordered 0
    · exact flagsUpTo_ordered 1
    · exact flagsUpTo_ordered 2
    · exact flagsUpTo_ordered 3

/-- Witness for C5 at a concrete reachable snapshot: the process after the
first two stages have completed. -/
theorem reachable_flags_ordered_witness :
    ReachableProcess ⟨.comparing, ⟨true, true, false, false⟩⟩ ∧
    flagsOrdered (PipelineProcess.mk .comparing ⟨true, true, false, false⟩).flags := by
  have hreach : ReachableProcess ⟨.comparing, ⟨true, true, false, false⟩⟩ := by
    refine Relation.ReflTransGen.tail (Relation.ReflTransGen.tail
      (Relation.ReflTransGen.tail Relation.ReflTransGen.refl
        (PipelineStep.start ⟨false, false, false, false⟩))
      (PipelineStep.cv_done ⟨false, false, false, false⟩))
      (PipelineStep.offer_done ⟨true, false, false, false⟩)
  exact ⟨hreach, reachable_flags_ordered _ hreach⟩

/-- Concrete external capabilities used by the witnesses. -/
def sampleCaps : Capabilities :=
  ⟨fun s => s, fun c => c.cv_text ++ "|" ++ c.offer_text,
   fun _ => "cv analysis", fun _ => "offer analysis"⟩

/-- Concrete fresh input content used by the witnesses. -/
def sampleContent : Content := ⟨"cv text", "offer text", none⟩

/-- Empty durable state used by the witnesses. -/
def emptyState : OrchState := ⟨[], []⟩

/-- C1: a request that supplies both a session id and fresh content is
rejected with the invalid_request error and the durable state is
untouched, so no pipeline work, cache write or log write ever happens for
it. -/
theorem submit_rejects_mixed_request (caps : Capabilities) (now : Int)
    (pid : String) (st : OrchState) (req : SubmitRequest) (sid : String)
    (c : Content) (h1 : req.reuseSessionId = some sid)
    (h2 : req.content = some c) :
    submit caps now pid st req = (.rejected .invalidRequest, st) := by
  simp [submit, h1, h2]

/-- Witness for C1 at a concrete request carrying a session id and fresh
content. -/
theorem submit_rejects_mixed_request_witness :
    (SubmitRequest.mk (some "s9") (some sampleContent) "f1" "1.2.3.4"
        "demo").reuseSessionId = some "s9" ∧
    (SubmitRequest.mk (some "s9") (some sampleContent) "f1" "1.2.3.4"
        "demo").content = some sampleContent ∧
    submit sampleCaps 0 "p1" emptyState
        (SubmitRequest.mk (some "s9") (some sampleContent) "f1" "1.2.3.4"
          "demo") =
      (.rejected .invalidRequest, emptyState) :=
  ⟨rfl, rfl,
    submit_rejects_mixed_request sampleCaps 0 "p1" emptyState _ "s9"
      sampleContent rfl rfl⟩

/-- C2: for a fresh submission, the admission check rejects with the
per-origin error as soon as the origin already has at least 2 logged
requests in the window; only when the origin count is below its ceiling is
the global count examined, rejecting with the global error at 10; and a
reuse submission never changes the durable state, so it is never counted
against either ceiling. -/
theorem admission_order_and_ceilings (caps : Capabilities) (now : Int)
    (pid : String) (st : OrchState) (req : SubmitRequest) (c : Content)
    (h1 : req.reuseSessionId = none) (h2 : req.content = some c) :
    PER_ORIGIN_LIMIT = 2 ∧ GLOBAL_LIMIT = 10 ∧
    (PER_ORIGIN_LIMIT ≤ countOriginRequests now req.origin st.log →
      submit caps now pid st req = (.rejected .originRateLimit, st)) ∧
    (countOriginRequests now req.origin st.log < PER_ORIGIN_LIMIT →
      GLOBAL_LIMIT ≤ countAllRequests now st.log →
      submit caps now pid st req = (.rejected .globalRateLimit, st)) ∧
    (∀ req2 sid2, req2.reuseSessionId = some sid2 → req2.content = none →
      (submit caps now pid st req2).2 = st) := by
  refine ⟨rfl, rfl, ?_, ?_, ?_⟩
  · intro hO
    have hadm : admissionCheck now req.origin st.log = some .originRateLimit := by
      unfold admissionCheck
      rw [if_pos hO]
    simp [submit, h1, h2, hadm]
  · intro hO hG
    have hadm : admissionCheck now req.origin st.log = some .globalRateLimit := by
      unfold admissionCheck
      rw [if_neg (Nat.not_le.mpr hO), if_pos hG]
    simp [submit, h1, h2, hadm]
  · intro req2 sid2 h1' h2'
    simp only [submit, h1', h2']
    cases lookupCache sid2 st.cache <;> rfl

/-- Durable state with two logged requests from one origin, used by the
rate-limit witness. -/
def rateLimitedState : OrchState :=
  ⟨[], [⟨"1.2.3.4", some "p0", some "demo", 0⟩,
        ⟨"1.2.3.4", some "p0", some "demo", 0⟩]⟩

/-- Witness for C2 at a concrete origin that already made two requests
today. -/
theorem admission_order_and_ceilings_witness :
    (SubmitRequest.mk none (some sampleContent) "f1" "1.2.3.4"
        "demo").reuseSessionId = none ∧
    (SubmitRequest.mk none (some sampleContent) "f1" "1.2.3.4"
        "demo").content = some sampleContent ∧
    (PER_ORIGIN_LIMIT = 2 ∧ GLOBAL_LIMIT = 10 ∧
      (PER_ORIGIN_LIMIT ≤ countOriginRequests 0
          (SubmitRequest.mk none (some sampleContent) "f1" "1.2.3.4"
            "demo").origin rateLimitedState.log →
        submit sampleCaps 0 "p1" rateLimitedState
            (SubmitRequest.mk none (some sampleContent) "f1" "1.2.3.4"
              "demo") =
          (.rejected .originRateLimit, rateLimitedState)) ∧
      (countOriginRequests 0
          (SubmitRequest.mk none (some sampleContent) "f1" "1.2.3.4"
            "demo").origin rateLimitedState.log < PER_ORIGIN_LIMIT →
        GLOBAL_LIMIT ≤ countAllRequests 0 rateLimitedState.log →
        submit sampleCaps 0 "p1" rateLimitedState
            (SubmitRequest.mk none (some sampleContent) "f1" "1.2.3.4"
              "demo") =
          (.rejected .globalRateLimit, rateLimitedState)) ∧
      (∀ req2 sid2, req2.reuseSessionId = some sid2 → req2.content = none →
        (submit sampleCaps 0 "p1" rateLimitedState req2).2 =
          rateLimitedState)) :=
  ⟨rfl, rfl,
    admission_order_and_ceilings sampleCaps 0 "p1" rateLimitedState _
      sampleContent rfl rfl⟩

/-- C3: once a fresh run for session S has completed, a second submission
reusing S returns byte-identical results, changes nothing, and the two
submissions together write exactly one request-log row. -/
theorem session_reuse_idempotent (caps : Capabilities) (now now2 : Int)
    (pid pid2 : String) (st : OrchState) (c : Content)
    (S origin origin2 uid uid2 : String)
    (hS : lookupCache S st.cache = none)
    (hadm : admissionCheck now origin st.log = none) :
    (submit caps now pid st ⟨none, some c, S, origin, uid⟩).1 =
      .results (caps.runPipeline c) ∧
    (submit caps now2 pid2
        (submit caps now pid st ⟨none, some c, S, origin, uid⟩).2
        ⟨some S, none, "", origin2, uid2⟩).1 =
      .results (caps.runPipeline c) ∧
    (submit caps now2 pid2
        (submit caps now pid st ⟨none, some c, S, origin, uid⟩).2
        ⟨some S, none, "", origin2, uid2⟩).2 =
      (submit caps now pid st ⟨none, some c, S, origin, uid⟩).2 ∧
    ((submit caps now pid st ⟨none, some c, S, origin, uid⟩).2).log.length =
      st.log.length + 1 := by
  have h1 : submit caps now pid st ⟨none, some c, S, origin, uid⟩ =
      (.results (caps.runPipeline c),
       { cache := { session_id := S
                    cv_text_hash := caps.hashText c.cv_text
                    job_offer_text_hash := caps.hashText c.offer_text
                    additional_considerations_hash :=
                      c.considerations.map caps.hashText
                    comparison_results := caps.runPipeline c
                    cv_analysis := some (caps.cvAnalysis c)
                    job_offer_analysis := some (caps.offerAnalysis c)
                    created_at := now } :: st.cache
         log := { ip_address := origin, process_id := some pid
                  user_id := some uid, created_at := now } :: st.log }) := by
    simp [submit, hadm, storeCache, hS]
  rw [h1]
  refine ⟨rfl, ?_, ?_, rfl⟩
  · simp [submit, lookupCache, List.find?]
  · simp [submit, lookupCache, List.find?]

/-- Witness for C3: a fresh run for session s1 against an empty store,
then a reuse of s1. -/
theorem session_reuse_idempotent_witness :
    lookupCache "s1" emptyState.cache = none ∧
    admissionCheck 0 "1.2.3.4" emptyState.log = none ∧
    ((submit sampleCaps 0 "p1" emptyState
        ⟨none, some sampleContent, "s1", "1.2.3.4", "demo"⟩).1 =
      .results (sampleCaps.runPipeline sampleContent) ∧
    (submit sampleCaps 7 "p2"
        (submit sampleCaps 0 "p1" emptyState
          ⟨none, some sampleContent, "s1", "1.2.3.4", "demo"⟩).2
        ⟨some "s1", none, "", "5.6.7.8", "demo2"⟩).1 =
      .results (sampleCaps.runPipeline sampleContent) ∧
    (submit sampleCaps 7 "p2"
        (submit sampleCaps 0 "p1" emptyState
          ⟨none, some sampleContent, "s1", "1.2.3.4", "demo"⟩).2
        ⟨some "s1", none, "", "5.6.7.8", "demo2"⟩).2 =
      (submit sampleCaps 0 "p1" emptyState
        ⟨none, some sampleContent, "s1", "1.2.3.4", "demo"⟩).2 ∧
    ((submit sampleCaps 0 "p1" emptyState
        ⟨none, some sampleContent, "s1", "1.2.3.4", "demo"⟩).2).log.length =
      emptyState.log.length + 1) :=
  ⟨rfl, rfl,
    session_reuse_idempotent sampleCaps 0 7 "p1" "p2" emptyState
      sampleContent "s1" "1.2.3.4" "5.6.7.8" "demo" "demo2" rfl rfl⟩

/-- C7: a request supplying a session id with no cache entry and no
fallback content is rejected with session_not_found, whose detail carries
a non-empty human-readable message and a non-empty remediation
suggestion. -/
theorem submit_unknown_session (caps : Capabilities) (now : Int)
    (pid : String) (st : OrchState) (req : SubmitRequest) (sid : String)
    (h1 : req.reuseSessionId = some sid) (h2 : req.content = none)
    (h3 : lookupCache sid st.cache = none) :
    submit caps now pid st req = (.rejected .sessionNotFound, st) ∧
    (errorDetail .sessionNotFound).1 ≠ "" ∧
    (errorDetail .sessionNotFound).2 ≠ "" := by
  refine ⟨?_, by decide, by decide⟩
  simp [submit, h1, h2, h3]

/-- Witness for C7 at a concrete unknown session id against an empty
store. -/
theorem submit_unknown_session_witness :
    (SubmitRequest.mk (some "ghost") none "" "1.2.3.4"
        "demo").reuseSessionId = some "ghost" ∧
    (SubmitRequest.mk (some "ghost") none "" "1.2.3.4" "demo").content =
      none ∧
    lookupCache "ghost" emptyState.cache = none ∧
    (submit sampleCaps 0 "p1" emptyState
        (SubmitRequest.mk (some "ghost") none "" "1.2.3.4" "demo") =
      (.rejected .sessionNotFound, emptyState) ∧
    (errorDetail .sessionNotFound).1 ≠ "" ∧
    (errorDetail .sessionNotFound).2 ≠ "") :=
  ⟨rfl, rfl, rfl,
    submit_unknown_session sampleCaps 0 "p1" emptyState _ "ghost" rfl rfl
      rfl⟩

end CareerAssistant
